import Mathlib

/-!
Shallow embedding of the Geyser GPU texture-sharing library (Rust) and
verification of its specification claims.

Sources embedded:
- src/src/common/mod.rs   : TextureUsage, TextureFormat, TextureDescriptor, ApiTextureHandle
- src/src/error.rs        : GeyserError
- src/src/vulkan/mod.rs   : VulkanTextureShareManager texture operations (Linux fd path)
- src/src/metal/mod.rs    : MetalTextureShareManager texture operations, wait_for_event
- src/src/bevy_plugin/wgpu_bridge.rs : to_wgpu_format, from_wgpu_format, to_wgpu_usage

Native driver calls (vkCreateImage, allocation, bind, fd export, IOSurface
creation/lookup, MTLTexture creation) are modelled by an oracle record that
fixes, per call site, whether the call succeeds and what values the device
reports; native objects are identified by freshly drawn natural numbers and
tracked in explicit live-object lists so leak/cleanup behavior is visible.
-/

namespace Geyser

/-- Abstract texture usage flags (src/src/common/mod.rs, enum TextureUsage). -/
inductive TextureUsage where
  | CopySrc
  | CopyDst
  | TextureBinding
  | RenderAttachment
  | StorageBinding
deriving DecidableEq, Repr

/-- Abstract texture format, 21 variants (src/src/common/mod.rs, enum TextureFormat). -/
inductive TextureFormat where
  | Rgba8Unorm
  | Bgra8Unorm
  | Rgba8Srgb
  | Bgra8Srgb
  | R8Unorm
  | Rg8Unorm
  | R16Float
  | Rg16Float
  | Rgba16Float
  | R16Uint
  | R16Sint
  | R32Float
  | Rg32Float
  | Rgba32Float
  | R32Uint
  | R32Sint
  | Depth32Float
  | Depth24Plus
  | Depth24PlusStencil8
  | Rgb10a2Unorm
  | Rg11b10Float
deriving DecidableEq, Repr

/-- Descriptor for creating a shareable texture (src/src/common/mod.rs). -/
structure TextureDescriptor where
  width : Nat
  height : Nat
  format : TextureFormat
  usage : List TextureUsage
  label : Option String
deriving DecidableEq, Repr

/-- Error taxonomy (src/src/error.rs, enum GeyserError). -/
inductive GeyserError where
  | VulkanInitializationError (msg : String)
  | VulkanApiError (msg : String)
  | MetalInitializationError (msg : String)
  | MetalApiError (msg : String)
  | UnsupportedTextureFormat (msg : String)
  | UnsupportedFormat (msg : String)
  | NotImplemented (msg : String)
  | InvalidTextureHandle
  | ResourceInUse
  | OperationNotSupported
  | Other (msg : String)
deriving DecidableEq, Repr

/-- Constructor tag of a GeyserError: two errors are of the same kind when their
tags agree (used to compare failure kinds independently of carried strings). -/
def GeyserError.kindTag : GeyserError → Nat
  | .VulkanInitializationError _ => 0
  | .VulkanApiError _ => 1
  | .MetalInitializationError _ => 2
  | .MetalApiError _ => 3
  | .UnsupportedTextureFormat _ => 4
  | .UnsupportedFormat _ => 5
  | .NotImplemented _ => 6
  | .InvalidTextureHandle => 7
  | .ResourceInUse => 8
  | .OperationNotSupported => 9
  | .Other _ => 10

/-- Vulkan native format enumeration, restricted to the image of the
translation table (src/src/vulkan/mod.rs uses ash vk names). -/
inductive VkFormat where
  | R8G8B8A8_UNORM
  | B8G8R8A8_UNORM
  | R8G8B8A8_SRGB
  | B8G8R8A8_SRGB
  | R8_UNORM
  | R8G8_UNORM
  | R16_SFLOAT
  | R16G16_SFLOAT
  | R16G16B16A16_SFLOAT
  | R16_UINT
  | R16_SINT
  | R32_SFLOAT
  | R32G32_SFLOAT
  | R32G32B32A32_SFLOAT
  | R32_UINT
  | R32_SINT
  | D32_SFLOAT
  | D24_UNORM_S8_UINT
  | A2R10G10B10_UNORM_PACK32
  | B10G11R11_UFLOAT_PACK32
deriving DecidableEq, Repr

/-- Format translation for the Vulkan backend
(src/src/vulkan/mod.rs lines 172-205, fn map_texture_format_to_vk). -/
def map_texture_format_to_vk : TextureFormat → Except GeyserError VkFormat
  | .Rgba8Unorm => .ok .R8G8B8A8_UNORM
  | .Bgra8Unorm => .ok .B8G8R8A8_UNORM
  | .Rgba8Srgb => .ok .R8G8B8A8_SRGB
  | .Bgra8Srgb => .ok .B8G8R8A8_SRGB
  | .R8Unorm => .ok .R8_UNORM
  | .Rg8Unorm => .ok .R8G8_UNORM
  | .R16Float => .ok .R16_SFLOAT
  | .Rg16Float => .ok .R16G16_SFLOAT
  | .Rgba16Float => .ok .R16G16B16A16_SFLOAT
  | .R16Uint => .ok .R16_UINT
  | .R16Sint => .ok .R16_SINT
  | .R32Float => .ok .R32_SFLOAT
  | .Rg32Float => .ok .R32G32_SFLOAT
  | .Rgba32Float => .ok .R32G32B32A32_SFLOAT
  | .R32Uint => .ok .R32_UINT
  | .R32Sint => .ok .R32_SINT
  | .Depth32Float => .ok .D32_SFLOAT
  | .Depth24Plus => .ok .D24_UNORM_S8_UINT
  | .Depth24PlusStencil8 => .ok .D24_UNORM_S8_UINT
  | .Rgb10a2Unorm => .ok .A2R10G10B10_UNORM_PACK32
  | .Rg11b10Float => .ok .B10G11R11_UFLOAT_PACK32

/-- Metal native pixel format enumeration, restricted to the image of the
translation table (src/src/metal/mod.rs uses MTLPixelFormat names). -/
inductive MTLPixelFormat where
  | RGBA8Unorm
  | BGRA8Unorm
  | RGBA8Unorm_sRGB
  | BGRA8Unorm_sRGB
  | R8Unorm
  | RG8Unorm
  | R16Float
  | RG16Float
  | RGBA16Float
  | R16Uint
  | R16Sint
  | R32Float
  | RG32Float
  | RGBA32Float
  | R32Uint
  | R32Sint
  | Depth32Float
  | Depth32Float_Stencil8
  | RGB10A2Unorm
  | RG11B10Float
deriving DecidableEq, Repr

/-- Format translation for the Metal backend
(src/src/metal/mod.rs lines 61-94, fn map_texture_format_to_mtl). -/
def map_texture_format_to_mtl : TextureFormat → Except GeyserError MTLPixelFormat
  | .Rgba8Unorm => .ok .RGBA8Unorm
  | .Bgra8Unorm => .ok .BGRA8Unorm
  | .Rgba8Srgb => .ok .RGBA8Unorm_sRGB
  | .Bgra8Srgb => .ok .BGRA8Unorm_sRGB
  | .R8Unorm => .ok .R8Unorm
  | .Rg8Unorm => .ok .RG8Unorm
  | .R16Float => .ok .R16Float
  | .Rg16Float => .ok .RG16Float
  | .Rgba16Float => .ok .RGBA16Float
  | .R16Uint => .ok .R16Uint
  | .R16Sint => .ok .R16Sint
  | .R32Float => .ok .R32Float
  | .Rg32Float => .ok .RG32Float
  | .Rgba32Float => .ok .RGBA32Float
  | .R32Uint => .ok .R32Uint
  | .R32Sint => .ok .R32Sint
  | .Depth32Float => .ok .Depth32Float
  | .Depth24Plus => .ok .Depth32Float
  | .Depth24PlusStencil8 => .ok .Depth32Float_Stencil8
  | .Rgb10a2Unorm => .ok .RGB10A2Unorm
  | .Rg11b10Float => .ok .RG11B10Float

/-- wgpu-types texture format, restricted to the variants named by the bridge
plus one representative unmapped variant (Rgba8Snorm) exercising the
catch-all arm of from_wgpu_format (src/src/bevy_plugin/wgpu_bridge.rs). -/
inductive WgpuTextureFormat where
  | Rgba8Unorm
  | Bgra8Unorm
  | Rgba8UnormSrgb
  | Bgra8UnormSrgb
  | R8Unorm
  | Rg8Unorm
  | R16Float
  | Rg16Float
  | Rgba16Float
  | R16Uint
  | R16Sint
  | R32Float
  | Rg32Float
  | Rgba32Float
  | R32Uint
  | R32Sint
  | Depth32Float
  | Depth24Plus
  | Depth24PlusStencil8
  | Rgb10a2Unorm
  | Rg11b10Ufloat
  | Rgba8Snorm
deriving DecidableEq, Repr

/-- Geyser-to-wgpu format conversion
(src/src/bevy_plugin/wgpu_bridge.rs lines 23-56, fn to_wgpu_format). -/
def to_wgpu_format : TextureFormat → WgpuTextureFormat
  | .Rgba8Unorm => .Rgba8Unorm
  | .Bgra8Unorm => .Bgra8Unorm
  | .Rgba8Srgb => .Rgba8UnormSrgb
  | .Bgra8Srgb => .Bgra8UnormSrgb
  | .R8Unorm => .R8Unorm
  | .Rg8Unorm => .Rg8Unorm
  | .R16Float => .R16Float
  | .Rg16Float => .Rg16Float
  | .Rgba16Float => .Rgba16Float
  | .R16Uint => .R16Uint
  | .R16Sint => .R16Sint
  | .R32Float => .R32Float
  | .Rg32Float => .Rg32Float
  | .Rgba32Float => .Rgba32Float
  | .R32Uint => .R32Uint
  | .R32Sint => .R32Sint
  | .Depth32Float => .Depth32Float
  | .Depth24Plus => .Depth24Plus
  | .Depth24PlusStencil8 => .Depth24PlusStencil8
  | .Rgb10a2Unorm => .Rgb10a2Unorm
  | .Rg11b10Float => .Rg11b10Ufloat

/-- wgpu-to-Geyser format conversion with a catch-all UnsupportedFormat arm
(src/src/bevy_plugin/wgpu_bridge.rs lines 76-101, fn from_wgpu_format). -/
def from_wgpu_format : WgpuTextureFormat → Except GeyserError TextureFormat
  | .Rgba8Unorm => .ok .Rgba8Unorm
  | .Bgra8Unorm => .ok .Bgra8Unorm
  | .Rgba8UnormSrgb => .ok .Rgba8Srgb
  | .Bgra8UnormSrgb => .ok .Bgra8Srgb
  | .R8Unorm => .ok .R8Unorm
  | .Rg8Unorm => .ok .Rg8Unorm
  | .R16Float => .ok .R16Float
  | .Rg16Float => .ok .Rg16Float
  | .Rgba16Float => .ok .Rgba16Float
  | .R16Uint => .ok .R16Uint
  | .R16Sint => .ok .R16Sint
  | .R32Float => .ok .R32Float
  | .Rg32Float => .ok .Rg32Float
  | .Rgba32Float => .ok .Rgba32Float
  | .R32Uint => .ok .R32Uint
  | .R32Sint => .ok .R32Sint
  | .Depth32Float => .ok .Depth32Float
  | .Depth24Plus => .ok .Depth24Plus
  | .Depth24PlusStencil8 => .ok .Depth24PlusStencil8
  | .Rgb10a2Unorm => .ok .Rgb10a2Unorm
  | .Rg11b10Ufloat => .ok .Rg11b10Float
  | _ => .error (.UnsupportedFormat "Unsupported wgpu format")

/-- Vulkan vk ImageUsageFlags bit TRANSFER_SRC. -/
def VK_TRANSFER_SRC : Nat := 1
/-- Vulkan vk ImageUsageFlags bit TRANSFER_DST. -/
def VK_TRANSFER_DST : Nat := 2
/-- Vulkan vk ImageUsageFlags bit SAMPLED. -/
def VK_SAMPLED : Nat := 4
/-- Vulkan vk ImageUsageFlags bit STORAGE. -/
def VK_STORAGE : Nat := 8
/-- Vulkan vk ImageUsageFlags bit COLOR_ATTACHMENT. -/
def VK_COLOR_ATTACHMENT : Nat := 16
/-- Vulkan vk ImageAspectFlags bit COLOR. -/
def VK_ASPECT_COLOR : Nat := 1

/-- Usage translation for the Vulkan backend, returning (ImageUsageFlags,
ImageAspectFlags) accumulated over the slice exactly as the Rust loop does
(src/src/vulkan/mod.rs lines 208-231, fn map_texture_usage_to_vk). -/
def map_texture_usage_to_vk (usages : List TextureUsage) : Nat × Nat :=
  usages.foldl
    (fun acc u =>
      match u with
      | .CopySrc => (acc.1 ||| VK_TRANSFER_SRC, acc.2)
      | .CopyDst => (acc.1 ||| VK_TRANSFER_DST, acc.2)
      | .TextureBinding => (acc.1 ||| VK_SAMPLED, acc.2 ||| VK_ASPECT_COLOR)
      | .RenderAttachment => (acc.1 ||| VK_COLOR_ATTACHMENT, acc.2 ||| VK_ASPECT_COLOR)
      | .StorageBinding => (acc.1 ||| VK_STORAGE, acc.2 ||| VK_ASPECT_COLOR))
    (0, 0)

/-- Metal MTLTextureUsage bit ShaderRead. -/
def MTL_SHADER_READ : Nat := 1
/-- Metal MTLTextureUsage bit ShaderWrite. -/
def MTL_SHADER_WRITE : Nat := 2
/-- Metal MTLTextureUsage bit RenderTarget. -/
def MTL_RENDER_TARGET : Nat := 4

/-- Usage translation for the Metal backend
(src/src/metal/mod.rs lines 127-139, fn map_texture_usage_to_mtl). -/
def map_texture_usage_to_mtl (usages : List TextureUsage) : Nat :=
  usages.foldl
    (fun acc u =>
      match u with
      | .CopySrc => acc ||| MTL_SHADER_READ
      | .CopyDst => acc ||| MTL_SHADER_WRITE
      | .TextureBinding => acc ||| MTL_SHADER_READ
      | .RenderAttachment => acc ||| MTL_RENDER_TARGET
      | .StorageBinding => acc ||| MTL_SHADER_WRITE)
    0

/-- wgpu TextureUsages bit COPY_SRC. -/
def WGPU_COPY_SRC : Nat := 1
/-- wgpu TextureUsages bit COPY_DST. -/
def WGPU_COPY_DST : Nat := 2
/-- wgpu TextureUsages bit TEXTURE_BINDING. -/
def WGPU_TEXTURE_BINDING : Nat := 4
/-- wgpu TextureUsages bit STORAGE_BINDING. -/
def WGPU_STORAGE_BINDING : Nat := 8
/-- wgpu TextureUsages bit RENDER_ATTACHMENT. -/
def WGPU_RENDER_ATTACHMENT : Nat := 16

/-- Usage translation for the wgpu bridge
(src/src/bevy_plugin/wgpu_bridge.rs lines 59-73, fn to_wgpu_usage). -/
def to_wgpu_usage (usage : List TextureUsage) : Nat :=
  usage.foldl
    (fun acc u =>
      acc |||
        match u with
        | .CopySrc => WGPU_COPY_SRC
        | .CopyDst => WGPU_COPY_DST
        | .TextureBinding => WGPU_TEXTURE_BINDING
        | .RenderAttachment => WGPU_RENDER_ATTACHMENT
        | .StorageBinding => WGPU_STORAGE_BINDING)
    0

/-- Vulkan external-memory handle type OPAQUE_FD (ash bit value 1). The
embedding models the Linux cfg branch of the source (fd-based export). -/
def VK_OPAQUE_FD : Nat := 1

/-- Vulkan texture share handle
(src/src/vulkan/mod.rs lines 27-36, struct VulkanTextureShareHandle). -/
structure VulkanTextureShareHandle where
  raw_handle : Nat
  memory_type_index : Nat
  size : Nat
  handle_type : Nat
  dedicated_allocation : Bool
deriving DecidableEq, Repr

/-- Metal texture share handle carrying an IOSurface id
(src/src/metal/mod.rs lines 19-22, struct MetalTextureShareHandle). -/
structure MetalTextureShareHandle where
  io_surface_id : Nat
deriving DecidableEq, Repr

/-- Tagged union of per-backend texture handles
(src/src/common/mod.rs, enum ApiTextureHandle). -/
inductive ApiTextureHandle where
  | Vulkan (h : VulkanTextureShareHandle)
  | Metal (h : MetalTextureShareHandle)
deriving DecidableEq, Repr

/-- Registry lookup: first entry with the given key, as a HashMap get
(the managers key their HashMaps by raw handle value / surface id). -/
def registry_lookup (m : List (Nat × Nat)) (k : Nat) : Option Nat :=
  (m.find? (fun p => p.1 == k)).map (fun p => p.2)

/-- Registry insert with HashMap replace-on-collision semantics. -/
def registry_insert (m : List (Nat × Nat)) (k v : Nat) : List (Nat × Nat) :=
  (k, v) :: m.filter (fun p => p.1 != k)

/-- Registry removal of a key (HashMap remove). -/
def registry_remove (m : List (Nat × Nat)) (k : Nat) : List (Nat × Nat) :=
  m.filter (fun p => p.1 != k)

/-- Vulkan shared texture wrapper
(src/src/vulkan/mod.rs lines 53-61, struct VulkanSharedTexture); native
image and allocation are identified by numbers drawn from the state. -/
structure VulkanSharedTexture where
  image : Nat
  allocation : Option Nat
  image_view : Option Nat
  descriptor : TextureDescriptor
  exported_handle : Option VulkanTextureShareHandle
deriving DecidableEq, Repr

/-- Mutable state of a VulkanTextureShareManager: the exported-resources
registry (raw handle value to DeviceMemory) plus bookkeeping of live native
objects and a fresh-id counter, which stand in for the Vulkan driver heap
(src/src/vulkan/mod.rs lines 87-111). -/
structure VkState where
  exported_resources : List (Nat × Nat)
  live_images : List Nat
  live_memories : List Nat
  next_id : Nat
deriving DecidableEq, Repr

/-- Outcomes of the native Vulkan calls made by the texture operations, one
field per call site; values the device reports (memory requirements, memory
type count, exported fd) are supplied here as well. -/
structure VkOracle where
  create_image_ok : Bool
  allocate_ok : Bool
  bind_ok : Bool
  get_fd_ok : Bool
  fd_value : Nat
  mem_req_bits : Nat
  mem_req_size : Nat
  memory_type_count : Nat
  allocate_memory_ok : Bool
deriving DecidableEq, Repr

/-- Vulkan create_shareable_texture
(src/src/vulkan/mod.rs lines 564-633): maps format and usage, creates the
image tagged for external memory, allocates dedicated memory, binds it.
On the Rust failure paths after image creation nothing destroys the image,
which the model reflects by leaving it in live_images. -/
def vulkan_create_shareable_texture (o : VkOracle) (s : VkState)
    (descriptor : TextureDescriptor) :
    VkState × Except GeyserError VulkanSharedTexture :=
  match map_texture_format_to_vk descriptor.format with
  | .error e => (s, .error e)
  | .ok _ =>
    if o.create_image_ok = false then
      (s, .error (.VulkanApiError "vkCreateImage failed"))
    else
      let image := s.next_id
      let s1 : VkState :=
        { s with next_id := s.next_id + 1, live_images := image :: s.live_images }
      if o.allocate_ok = false then
        (s1, .error (.VulkanApiError "Failed to allocate image memory"))
      else
        let mem := s1.next_id
        let s2 : VkState :=
          { s1 with next_id := s1.next_id + 1, live_memories := mem :: s1.live_memories }
        if o.bind_ok = false then
          (s2, .error (.VulkanApiError "vkBindImageMemory failed"))
        else
          (s2, .ok { image := image, allocation := some mem, image_view := none,
                     descriptor := descriptor, exported_handle := none })

/-- First compatible memory-type index: scan i = start, start+1, ... for the
given number of remaining indices and return the first with bit i set, as
the Rust iterator chain (0..count).find does. -/
def scan_first_bit (bits : Nat) (start : Nat) : Nat → Option Nat
  | 0 => none
  | fuel + 1 =>
    if bits.testBit start then some start
    else scan_first_bit bits (start + 1) fuel

/-- Memory-type index resolution on export
(src/src/vulkan/mod.rs lines 663-667): first index whose bit is set in the
requirement mask, defaulting to 0 when none is. -/
def find_memory_type_index (count bits : Nat) : Nat :=
  (scan_first_bit bits 0 count).getD 0

/-- Vulkan export_texture (src/src/vulkan/mod.rs lines 635-688, Linux
branch): requires an owned allocation, exports the memory fd, resolves the
memory-type index, registers the memory under the raw handle value. The
dyn-downcast step of the source is resolved by taking the Vulkan texture
type directly; the downcast-failure arm is modelled separately where a
claim needs it. -/
def vulkan_export_texture (o : VkOracle) (s : VkState)
    (texture : VulkanSharedTexture) :
    VkState × Except GeyserError ApiTextureHandle :=
  match texture.allocation with
  | none => (s, .error (.Other "Texture has no allocation to export"))
  | some mem =>
    if o.get_fd_ok = false then
      (s, .error (.VulkanApiError "Failed to get FD"))
    else
      let raw_handle := o.fd_value
      let mti := find_memory_type_index o.memory_type_count o.mem_req_bits
      let handle : VulkanTextureShareHandle :=
        { raw_handle := raw_handle, memory_type_index := mti,
          size := o.mem_req_size, handle_type := VK_OPAQUE_FD,
          dedicated_allocation := true }
      ({ s with exported_resources :=
           registry_insert s.exported_resources raw_handle mem },
       .ok (.Vulkan handle))

/-- Vulkan import_texture (src/src/vulkan/mod.rs lines 690-814, Linux
branch): checks the handle's backend tag, creates an image, allocates
memory through the fd import path with a dedicated-allocation hint, binds,
and registers the imported memory under the handle's raw value. Failure
after image creation leaves the image (and, after allocation, the memory)
live, as the Rust early returns do. -/
def vulkan_import_texture (o : VkOracle) (s : VkState)
    (handle : ApiTextureHandle) (descriptor : TextureDescriptor) :
    VkState × Except GeyserError VulkanSharedTexture :=
  match handle with
  | .Metal _ => (s, .error .InvalidTextureHandle)
  | .Vulkan vh =>
    match map_texture_format_to_vk descriptor.format with
    | .error e => (s, .error e)
    | .ok _ =>
      if o.create_image_ok = false then
        (s, .error (.VulkanApiError "vkCreateImage failed"))
      else
        let image := s.next_id
        let s1 : VkState :=
          { s with next_id := s.next_id + 1, live_images := image :: s.live_images }
        if o.allocate_memory_ok = false then
          (s1, .error (.VulkanApiError "Failed to import FD memory"))
        else
          let mem := s1.next_id
          let s2 : VkState :=
            { s1 with next_id := s1.next_id + 1,
                      live_memories := mem :: s1.live_memories }
          if o.bind_ok = false then
            (s2, .error (.VulkanApiError "vkBindImageMemory failed"))
          else
            let s3 : VkState :=
              { s2 with exported_resources :=
                  registry_insert s2.exported_resources vh.raw_handle mem }
            (s3, .ok { image := image, allocation := none, image_view := none,
                       descriptor := descriptor, exported_handle := some vh })

/-- Vulkan release_texture_handle (src/src/vulkan/mod.rs lines 816-828):
rejects non-Vulkan handles, otherwise removes the registry entry for the
raw handle value, freeing the memory when one was registered. The third
component lists the memories freed by this call. -/
def vulkan_release_texture_handle (s : VkState) (handle : ApiTextureHandle) :
    VkState × Except GeyserError Unit × List Nat :=
  match handle with
  | .Metal _ => (s, .error .InvalidTextureHandle, [])
  | .Vulkan vh =>
    match registry_lookup s.exported_resources vh.raw_handle with
    | some mem =>
      ({ s with
          exported_resources := registry_remove s.exported_resources vh.raw_handle,
          live_memories := s.live_memories.filter (fun m => m != mem) },
       .ok (), [mem])
    | none => (s, .ok (), [])

/-- Metal shared texture wrapper (src/src/metal/mod.rs lines 30-36, struct
MetalSharedTexture); the backing IOSurface is identified by its surface id,
which is what both get_id and lookup key on. -/
structure MetalSharedTexture where
  texture : Nat
  io_surface : Option Nat
  descriptor : TextureDescriptor
  exported_handle : Option MetalTextureShareHandle
deriving DecidableEq, Repr

/-- Mutable state of a MetalTextureShareManager: the exported_surfaces
registry keyed by IOSurface id (src/src/metal/mod.rs lines 46-50). -/
structure MetalState where
  exported_surfaces : List (Nat × Nat)
deriving DecidableEq, Repr

/-- Outcomes of the native Metal calls made by the texture operations. -/
structure MetalOracle where
  new_surface_ok : Bool
  new_surface_id : Nat
  new_texture_ok : Bool
  lookup_ok : Bool
deriving DecidableEq, Repr

/-- Metal create_shareable_texture (src/src/metal/mod.rs lines 194-229):
maps format and usage, creates an IOSurface, creates an MTLTexture over it;
the registry is never touched. -/
def metal_create_shareable_texture (o : MetalOracle) (s : MetalState)
    (descriptor : TextureDescriptor) :
    MetalState × Except GeyserError MetalSharedTexture :=
  match map_texture_format_to_mtl descriptor.format with
  | .error e => (s, .error e)
  | .ok _ =>
    if o.new_surface_ok = false then
      (s, .error (.MetalInitializationError "Failed to create IOSurface"))
    else if o.new_texture_ok = false then
      (s, .error (.MetalApiError "Failed to create MTLTexture from IOSurface"))
    else
      (s, .ok { texture := 0, io_surface := some o.new_surface_id,
                descriptor := descriptor, exported_handle := none })

/-- Metal export_texture (src/src/metal/mod.rs lines 231-246): requires the
texture to hold an IOSurface reference (which both created and imported
textures do), registers the surface under its id and returns the id. -/
def metal_export_texture (s : MetalState) (texture : MetalSharedTexture) :
    MetalState × Except GeyserError ApiTextureHandle :=
  match texture.io_surface with
  | none =>
    (s, .error (.MetalApiError
      "Cannot export a Metal texture not backed by an owned IOSurface"))
  | some surf =>
    ({ s with exported_surfaces := registry_insert s.exported_surfaces surf surf },
     .ok (.Metal { io_surface_id := surf }))

/-- Metal import_texture (src/src/metal/mod.rs lines 248-278): checks the
handle's backend tag, looks the IOSurface up by id, maps format and usage
and creates an MTLTexture over the surface. No registry entry is inserted
anywhere on this path. -/
def metal_import_texture (o : MetalOracle) (s : MetalState)
    (handle : ApiTextureHandle) (descriptor : TextureDescriptor) :
    MetalState × Except GeyserError MetalSharedTexture :=
  match handle with
  | .Vulkan _ => (s, .error .InvalidTextureHandle)
  | .Metal mh =>
    if o.lookup_ok = false then
      (s, .error (.MetalApiError "Failed to lookup IOSurface by ID"))
    else
      match map_texture_format_to_mtl descriptor.format with
      | .error e => (s, .error e)
      | .ok _ =>
        if o.new_texture_ok = false then
          (s, .error (.MetalApiError "Failed to create MTLTexture from imported IOSurface"))
        else
          (s, .ok { texture := 0, io_surface := some mh.io_surface_id,
                    descriptor := descriptor, exported_handle := some mh })

/-- Metal release_texture_handle (src/src/metal/mod.rs lines 280-288):
rejects non-Metal handles, otherwise removes the registry entry for the
surface id; the third component lists the surface references dropped. -/
def metal_release_texture_handle (s : MetalState) (handle : ApiTextureHandle) :
    MetalState × Except GeyserError Unit × List Nat :=
  match handle with
  | .Vulkan _ => (s, .error .InvalidTextureHandle, [])
  | .Metal mh =>
    match registry_lookup s.exported_surfaces mh.io_surface_id with
    | some surf =>
      ({ s with exported_surfaces :=
           registry_remove s.exported_surfaces mh.io_surface_id },
       .ok (), [surf])
    | none => (s, .ok (), [])

/-- Metal wait_for_event (src/src/metal/mod.rs lines 174-184): succeeds when
the shared event's signaled value has reached the requested value, otherwise
returns the generic Other error immediately. -/
def wait_for_event (signaled_value : Nat) (value : Nat) : Except GeyserError Unit :=
  if signaled_value ≥ value then .ok ()
  else .error (.Other "Event not signaled to requested value yet")

/-! Shared concrete fixtures used to instantiate theorems. -/

/-- A 256x256 RGBA8 sampled-texture descriptor, as in the repository tests. -/
def sample_descriptor : TextureDescriptor :=
  { width := 256, height := 256, format := .Rgba8Unorm,
    usage := [.TextureBinding], label := none }

/-- Fresh Vulkan manager state: empty registry, no live native objects. -/
def vk_state0 : VkState :=
  { exported_resources := [], live_images := [], live_memories := [], next_id := 0 }

/-- Fresh Metal manager state: empty registry. -/
def metal_state0 : MetalState := { exported_surfaces := [] }

/-- Vulkan oracle where every native call succeeds; the device reports
requirement bits 0b1100, size 1024, 8 memory types, and exports fd 9. -/
def vk_oracle_ok : VkOracle :=
  { create_image_ok := true, allocate_ok := true, bind_ok := true,
    get_fd_ok := true, fd_value := 9, mem_req_bits := 12, mem_req_size := 1024,
    memory_type_count := 8, allocate_memory_ok := true }

/-- Vulkan oracle where image creation succeeds but both memory-allocation
call sites (create path and import path) fail. -/
def vk_oracle_alloc_fail : VkOracle :=
  { vk_oracle_ok with allocate_ok := false, allocate_memory_ok := false }

/-- Metal oracle where every native call succeeds and a created IOSurface
receives id 11. -/
def metal_oracle_ok : MetalOracle :=
  { new_surface_ok := true, new_surface_id := 11, new_texture_ok := true,
    lookup_ok := true }

/-- A Vulkan share handle with raw value 7, as produced by an exporter. -/
def sample_vk_handle : VulkanTextureShareHandle :=
  { raw_handle := 7, memory_type_index := 2, size := 1024,
    handle_type := VK_OPAQUE_FD, dedicated_allocation := true }

/-- A Metal share handle naming IOSurface id 5. -/
def sample_metal_handle : MetalTextureShareHandle := { io_surface_id := 5 }

/-- A Vulkan texture as import_texture produces it: no owned allocation. -/
def imported_vk_texture : VulkanSharedTexture :=
  { image := 0, allocation := none, image_view := none,
    descriptor := sample_descriptor, exported_handle := some sample_vk_handle }

/-! Helper lemmas about the registry association list. -/

/-- Looking up a key right after inserting it yields the inserted value. -/
theorem registry_lookup_insert_self (m : List (Nat × Nat)) (k v : Nat) :
    registry_lookup (registry_insert m k v) k = some v := by
  simp [registry_lookup, registry_insert, List.find?]

/-- Entries surviving the keep-different-keys filter never match the key. -/
theorem filter_ne_then_eq (m : List (Nat × Nat)) (k : Nat) :
    (m.filter (fun p => p.1 != k)).filter (fun p => p.1 == k) = [] := by
  induction m with
  | nil => rfl
  | cons p m ih =>
    by_cases hpk : p.1 = k
    · simp [List.filter_cons, hpk, ih]
    · simp [List.filter_cons, hpk, ih]

/-- Insertion leaves exactly one entry for the inserted key. -/
theorem registry_insert_entries_self (m : List (Nat × Nat)) (k v : Nat) :
    (registry_insert m k v).filter (fun p => p.1 == k) = [(k, v)] := by
  simp [registry_insert, List.filter_cons, filter_ne_then_eq]

/-- Removing a key makes a subsequent lookup of that key fail. -/
theorem registry_lookup_remove_self (m : List (Nat × Nat)) (k : Nat) :
    registry_lookup (registry_remove m k) k = none := by
  induction m with
  | nil => rfl
  | cons p m ih =>
    by_cases hpk : p.1 = k
    · simpa [registry_remove, List.filter_cons, hpk] using ih
    · simp only [registry_remove, registry_lookup, List.filter_cons] at ih ⊢
      rw [show (p.1 != k) = true by simp [hpk]]
      simp only [if_true, List.find?]
      rw [show (p.1 == k) = false by simp [hpk]]
      exact ih

/-- Removing an absent key is the identity. -/
theorem registry_remove_of_lookup_none (m : List (Nat × Nat)) (k : Nat)
    (h : registry_lookup m k = none) : registry_remove m k = m := by
  induction m with
  | nil => rfl
  | cons p m ih =>
    by_cases hpk : p.1 = k
    · simp [registry_lookup, List.find?, hpk] at h
    · have hrest : registry_lookup m k = none := by
        simp only [registry_lookup, List.find?] at h ⊢
        rw [show (p.1 == k) = false by simp [hpk]] at h
        exact h
      have hm := ih hrest
      simp only [registry_remove] at hm ⊢
      rw [List.filter_cons, show (p.1 != k) = true by simp [hpk]]
      simp [hm]

/-! Helper lemmas about the bitwise usage folds. -/

/-- Folding bitwise-or over a list starting from an accumulator equals the
accumulator or-ed with the fold from zero. -/
theorem foldl_lor_shift (f : TextureUsage → Nat) :
    ∀ (l : List TextureUsage) (a : Nat),
      l.foldl (fun acc u => acc ||| f u) a
        = a ||| l.foldl (fun acc u => acc ||| f u) 0
  | [], a => by simp
  | u :: l, a => by
    simp only [List.foldl]
    rw [foldl_lor_shift f l (a ||| f u), foldl_lor_shift f l (0 ||| f u)]
    simp [Nat.lor_assoc]

/-- Bitwise-or fold over an appended list splits into an or of folds. -/
theorem foldl_lor_append (f : TextureUsage → Nat) (A B : List TextureUsage) :
    (A ++ B).foldl (fun acc u => acc ||| f u) 0
      = A.foldl (fun acc u => acc ||| f u) 0
        ||| B.foldl (fun acc u => acc ||| f u) 0 := by
  rw [List.foldl_append, foldl_lor_shift]

/-- Per-flag Vulkan ImageUsageFlags contribution of one usage. -/
def vk_usage_bits : TextureUsage → Nat
  | .CopySrc => VK_TRANSFER_SRC
  | .CopyDst => VK_TRANSFER_DST
  | .TextureBinding => VK_SAMPLED
  | .RenderAttachment => VK_COLOR_ATTACHMENT
  | .StorageBinding => VK_STORAGE

/-- Per-flag Vulkan ImageAspectFlags contribution of one usage. -/
def vk_aspect_bits : TextureUsage → Nat
  | .CopySrc => 0
  | .CopyDst => 0
  | .TextureBinding => VK_ASPECT_COLOR
  | .RenderAttachment => VK_ASPECT_COLOR
  | .StorageBinding => VK_ASPECT_COLOR

/-- Per-flag Metal MTLTextureUsage contribution of one usage. -/
def mtl_usage_bits : TextureUsage → Nat
  | .CopySrc => MTL_SHADER_READ
  | .CopyDst => MTL_SHADER_WRITE
  | .TextureBinding => MTL_SHADER_READ
  | .RenderAttachment => MTL_RENDER_TARGET
  | .StorageBinding => MTL_SHADER_WRITE

/-- Per-flag wgpu TextureUsages contribution of one usage. -/
def wgpu_usage_bits : TextureUsage → Nat
  | .CopySrc => WGPU_COPY_SRC
  | .CopyDst => WGPU_COPY_DST
  | .TextureBinding => WGPU_TEXTURE_BINDING
  | .RenderAttachment => WGPU_RENDER_ATTACHMENT
  | .StorageBinding => WGPU_STORAGE_BINDING

/-- A paired bitwise fold splits into componentwise folds. -/
theorem foldl_pair_split (f g : TextureUsage → Nat) :
    ∀ (l : List TextureUsage) (a : Nat × Nat),
      l.foldl (fun acc u => (acc.1 ||| f u, acc.2 ||| g u)) a
        = (l.foldl (fun acc u => acc ||| f u) a.1,
           l.foldl (fun acc u => acc ||| g u) a.2)
  | [], _ => rfl
  | u :: l, a => by
    simp only [List.foldl]
    exact foldl_pair_split f g l (a.1 ||| f u, a.2 ||| g u)

/-- The Vulkan usage translation is the componentwise bitwise fold of the
per-flag contributions. -/
theorem map_texture_usage_to_vk_eq (l : List TextureUsage) :
    map_texture_usage_to_vk l
      = (l.foldl (fun acc u => acc ||| vk_usage_bits u) 0,
         l.foldl (fun acc u => acc ||| vk_aspect_bits u) 0) := by
  have hstep : (fun (acc : Nat × Nat) (u : TextureUsage) =>
      match u with
      | .CopySrc => (acc.1 ||| VK_TRANSFER_SRC, acc.2)
      | .CopyDst => (acc.1 ||| VK_TRANSFER_DST, acc.2)
      | .TextureBinding => (acc.1 ||| VK_SAMPLED, acc.2 ||| VK_ASPECT_COLOR)
      | .RenderAttachment => (acc.1 ||| VK_COLOR_ATTACHMENT, acc.2 ||| VK_ASPECT_COLOR)
      | .StorageBinding => (acc.1 ||| VK_STORAGE, acc.2 ||| VK_ASPECT_COLOR))
      = fun acc u => (acc.1 ||| vk_usage_bits u, acc.2 ||| vk_aspect_bits u) := by
    funext acc u
    cases u <;> simp [vk_usage_bits, vk_aspect_bits]
  rw [map_texture_usage_to_vk, hstep, foldl_pair_split]

/-- The Metal usage translation is the bitwise fold of the per-flag
contributions. -/
theorem map_texture_usage_to_mtl_eq (l : List TextureUsage) :
    map_texture_usage_to_mtl l
      = l.foldl (fun acc u => acc ||| mtl_usage_bits u) 0 := by
  have hstep : (fun (acc : Nat) (u : TextureUsage) =>
      match u with
      | .CopySrc => acc ||| MTL_SHADER_READ
      | .CopyDst => acc ||| MTL_SHADER_WRITE
      | .TextureBinding => acc ||| MTL_SHADER_READ
      | .RenderAttachment => acc ||| MTL_RENDER_TARGET
      | .StorageBinding => acc ||| MTL_SHADER_WRITE)
      = fun acc u => acc ||| mtl_usage_bits u := by
    funext acc u
    cases u <;> rfl
  rw [map_texture_usage_to_mtl, hstep]

/-- The wgpu usage translation is the bitwise fold of the per-flag
contributions. -/
theorem to_wgpu_usage_eq (l : List TextureUsage) :
    to_wgpu_usage l = l.foldl (fun acc u => acc ||| wgpu_usage_bits u) 0 := by
  have hstep : (fun (acc : Nat) (u : TextureUsage) =>
      acc |||
        match u with
        | .CopySrc => WGPU_COPY_SRC
        | .CopyDst => WGPU_COPY_DST
        | .TextureBinding => WGPU_TEXTURE_BINDING
        | .RenderAttachment => WGPU_RENDER_ATTACHMENT
        | .StorageBinding => WGPU_STORAGE_BINDING)
      = fun acc u => acc ||| wgpu_usage_bits u := by
    funext acc u
    cases u <;> rfl
  rw [to_wgpu_usage, hstep]

/-! Helper lemmas about the first-bit scan used for memory-type indices. -/

/-- A successful scan returns a set bit at or after the start, and every
index between the start and the result has its bit clear. -/
theorem scan_first_bit_spec :
    ∀ (fuel start x : Nat) (bits : Nat),
      scan_first_bit bits start fuel = some x →
      bits.testBit x = true ∧ start ≤ x ∧ x < start + fuel ∧
        ∀ j, start ≤ j → j < x → bits.testBit j = false
  | 0, _, _, _ => by intro h; exact absurd h (by simp [scan_first_bit])
  | fuel + 1, start, x, bits => by
    intro h
    rw [scan_first_bit] at h
    by_cases hb : bits.testBit start
    · simp only [hb, if_true] at h
      obtain rfl : start = x := by injection h
      exact ⟨hb, le_refl _, by omega, fun j hj hjx => by omega⟩
    · simp only [hb, if_false] at h
      obtain ⟨h1, h2, h3, h4⟩ := scan_first_bit_spec fuel (start + 1) x bits h
      refine ⟨h1, by omega, by omega, fun j hj hjx => ?_⟩
      rcases Nat.eq_or_lt_of_le hj with rfl | hlt
      · simpa using hb
      · exact h4 j hlt hjx

/-- If some index in scanning range has its bit set, the scan succeeds. -/
theorem scan_first_bit_isSome :
    ∀ (fuel start i : Nat) (bits : Nat),
      start ≤ i → i < start + fuel → bits.testBit i = true →
      (scan_first_bit bits start fuel).isSome = true
  | 0, start, i, _ => by omega
  | fuel + 1, start, i, bits => by
    intro hsi hif hbit
    rw [scan_first_bit]
    by_cases hb : bits.testBit start
    · simp [hb]
    · have hne : start ≠ i := fun he => by rw [he] at hb; exact hb hbit
      simp only [hb, if_false]
      exact scan_first_bit_isSome fuel (start + 1) i bits (by omega) (by omega) hbit

/-- When some memory-type bit below the count is set, the resolved index is
the least set bit: it is below the count, its bit is set, and all lower
bits are clear. -/
theorem find_memory_type_index_spec (count bits i : Nat)
    (hi : i < count) (hb : bits.testBit i = true) :
    find_memory_type_index count bits < count ∧
    bits.testBit (find_memory_type_index count bits) = true ∧
    ∀ j, j < find_memory_type_index count bits → bits.testBit j = false := by
  have hsome := scan_first_bit_isSome count 0 i bits (Nat.zero_le _) (by omega) hb
  obtain ⟨x, hx⟩ := Option.isSome_iff_exists.mp hsome
  obtain ⟨h1, _, h3, h4⟩ := scan_first_bit_spec count 0 x bits hx
  rw [find_memory_type_index, hx]
  exact ⟨by simpa using h3, h1, fun j hj => h4 j (Nat.zero_le _) hj⟩

/-- Every abstract format has a Vulkan mapping (the match is total). -/
theorem map_texture_format_to_vk_total (f : TextureFormat) :
    ∃ v, map_texture_format_to_vk f = .ok v := by
  cases f <;> exact ⟨_, rfl⟩

/-- Every abstract format has a Metal mapping (the match is total). -/
theorem map_texture_format_to_mtl_total (f : TextureFormat) :
    ∃ v, map_texture_format_to_mtl f = .ok v := by
  cases f <;> exact ⟨_, rfl⟩

/-- C4: releasing the same texture handle twice succeeds both times, frees
the registered resource at most once (the second call frees nothing), and
releasing a handle value that was never exported or imported succeeds
without changing the manager state, on both backends. -/
theorem c4_release_idempotent (s : VkState) (vh : VulkanTextureShareHandle)
    (ms : MetalState) (mh : MetalTextureShareHandle) :
    ((vulkan_release_texture_handle s (.Vulkan vh)).2.1 = .ok () ∧
      (vulkan_release_texture_handle
        (vulkan_release_texture_handle s (.Vulkan vh)).1 (.Vulkan vh)).2.1 = .ok () ∧
      (vulkan_release_texture_handle
        (vulkan_release_texture_handle s (.Vulkan vh)).1 (.Vulkan vh)).2.2 = [] ∧
      ((vulkan_release_texture_handle s (.Vulkan vh)).2.2
        ++ (vulkan_release_texture_handle
             (vulkan_release_texture_handle s (.Vulkan vh)).1 (.Vulkan vh)).2.2).length ≤ 1 ∧
      (registry_lookup s.exported_resources vh.raw_handle = none →
        (vulkan_release_texture_handle s (.Vulkan vh)).1 = s ∧
        (vulkan_release_texture_handle s (.Vulkan vh)).2.2 = [])) ∧
    ((metal_release_texture_handle ms (.Metal mh)).2.1 = .ok () ∧
      (metal_release_texture_handle
        (metal_release_texture_handle ms (.Metal mh)).1 (.Metal mh)).2.1 = .ok () ∧
      (metal_release_texture_handle
        (metal_release_texture_handle ms (.Metal mh)).1 (.Metal mh)).2.2 = [] ∧
      ((metal_release_texture_handle ms (.Metal mh)).2.2
        ++ (metal_release_texture_handle
             (metal_release_texture_handle ms (.Metal mh)).1 (.Metal mh)).2.2).length ≤ 1 ∧
      (registry_lookup ms.exported_surfaces mh.io_surface_id = none →
        (metal_release_texture_handle ms (.Metal mh)).1 = ms ∧
        (metal_release_texture_handle ms (.Metal mh)).2.2 = [])) := by
  constructor
  · cases hl : registry_lookup s.exported_resources vh.raw_handle with
    | some mem =>
      simp [vulkan_release_texture_handle, hl, registry_lookup_remove_self]
    | none =>
      simp [vulkan_release_texture_handle, hl]
  · cases hl : registry_lookup ms.exported_surfaces mh.io_surface_id with
    | some surf =>
      simp [metal_release_texture_handle, hl, registry_lookup_remove_self]
    | none =>
      simp [metal_release_texture_handle, hl]

/-- C4 witness: instantiated on a fresh Vulkan manager and the sample raw
handle 7, double release succeeds and the never-registered release is a
state-preserving no-op. -/
theorem c4_release_idempotent_witness :
    (vulkan_release_texture_handle vk_state0 (.Vulkan sample_vk_handle)).2.1
      = .ok () ∧
    (vulkan_release_texture_handle vk_state0 (.Vulkan sample_vk_handle)).1
      = vk_state0 :=
  ⟨(c4_release_idempotent vk_state0 sample_vk_handle metal_state0
      sample_metal_handle).1.1,
   ((c4_release_idempotent vk_state0 sample_vk_handle metal_state0
      sample_metal_handle).1.2.2.2.2 rfl).1⟩

/-- C5 counterexample: with the event counter at 0 and target 1, the wait
operation fails with the generic Other error, the very same error kind that
an unrelated failure (exporting a Vulkan texture without an owned
allocation) produces, so the below-target outcome is not a timeout outcome
distinct from every other failure kind. -/
theorem c5_counterexample :
    wait_for_event 0 1
      = .error (.Other "Event not signaled to requested value yet") ∧
    (vulkan_export_texture vk_oracle_ok vk_state0 imported_vk_texture).2
      = .error (.Other "Texture has no allocation to export") ∧
    GeyserError.kindTag (.Other "Event not signaled to requested value yet")
      = GeyserError.kindTag (.Other "Texture has no allocation to export") :=
  ⟨rfl, rfl, rfl⟩

/-- C5 amended: wait_for_event returns success exactly when the counter has
reached at least the target; when the counter is below the target it
returns immediately with the generic Other error (no timeout parameter
exists and no distinct timeout kind is returned). -/
theorem c5_wait_semantics_amended (c v : Nat) :
    (c ≥ v → wait_for_event c v = .ok ()) ∧
    (c < v → wait_for_event c v
      = .error (.Other "Event not signaled to requested value yet")) := by
  constructor
  · intro h
    simp [wait_for_event, h]
  · intro h
    rw [wait_for_event, if_neg (by omega)]

/-- C5 witness: counter 5 satisfies a wait for 5; counter 0 fails a wait
for 1 with the Other error. -/
theorem c5_wait_semantics_amended_witness :
    wait_for_event 5 5 = .ok () ∧
    wait_for_event 0 1
      = .error (.Other "Event not signaled to requested value yet") :=
  ⟨(c5_wait_semantics_amended 5 5).1 (by omega),
   (c5_wait_semantics_amended 0 1).2 (by omega)⟩

/-- C6 counterexample: the Vulkan table maps Depth24Plus and
Depth24PlusStencil8 to the same native format, and the Metal table maps
Depth32Float and Depth24Plus to the same native format, so neither backend
can have any fromNative with fromNative(toNative(f)) = f for all 21
variants; the claimed round-trip identity fails on these backends. -/
theorem c6_counterexample :
    map_texture_format_to_vk .Depth24Plus = .ok .D24_UNORM_S8_UINT ∧
    map_texture_format_to_vk .Depth24PlusStencil8 = .ok .D24_UNORM_S8_UINT ∧
    map_texture_format_to_mtl .Depth32Float = .ok .Depth32Float ∧
    map_texture_format_to_mtl .Depth24Plus = .ok .Depth32Float ∧
    (¬ ∃ g : VkFormat → TextureFormat,
        ∀ f, (map_texture_format_to_vk f).map g = .ok f) ∧
    (¬ ∃ g : MTLPixelFormat → TextureFormat,
        ∀ f, (map_texture_format_to_mtl f).map g = .ok f) := by
  refine ⟨rfl, rfl, rfl, rfl, ?_, ?_⟩
  · rintro ⟨g, hg⟩
    have h1 := hg .Depth24Plus
    have h2 := hg .Depth24PlusStencil8
    simp [map_texture_format_to_vk, Except.map] at h1 h2
    rw [h1] at h2
    exact TextureFormat.noConfusion h2
  · rintro ⟨g, hg⟩
    have h1 := hg .Depth32Float
    have h2 := hg .Depth24Plus
    simp [map_texture_format_to_mtl, Except.map] at h1 h2
    rw [h1] at h2
    exact TextureFormat.noConfusion h2

/-- C6 amended: round-trip identity holds on the wgpu bridge, the one
backend translation that defines a fromNative: converting any of the 21
abstract formats to the wgpu format and back yields the original format. -/
theorem c6_wgpu_roundtrip_amended (f : TextureFormat) :
    from_wgpu_format (to_wgpu_format f) = .ok f := by
  cases f <;> rfl

/-- C7: on all three backend translations, each singleton usage set maps to
a non-empty native bitmask, and translation of a union (concatenation) of
disjoint usage sets is the bitwise or of the separate translations. -/
theorem c7_usage_bit_coverage (u : TextureUsage) (A B : List TextureUsage)
    (_hdisj : ∀ x, x ∈ A → x ∉ B) :
    ((map_texture_usage_to_vk [u]).1 ≠ 0 ∧
      map_texture_usage_to_mtl [u] ≠ 0 ∧
      to_wgpu_usage [u] ≠ 0) ∧
    ((map_texture_usage_to_vk (A ++ B)).1
        = (map_texture_usage_to_vk A).1 ||| (map_texture_usage_to_vk B).1 ∧
      map_texture_usage_to_mtl (A ++ B)
        = map_texture_usage_to_mtl A ||| map_texture_usage_to_mtl B ∧
      to_wgpu_usage (A ++ B) = to_wgpu_usage A ||| to_wgpu_usage B) := by
  refine ⟨⟨?_, ?_, ?_⟩, ?_, ?_, ?_⟩
  · cases u <;> decide
  · cases u <;> decide
  · cases u <;> decide
  · simp only [map_texture_usage_to_vk_eq]
    exact foldl_lor_append vk_usage_bits A B
  · simp only [map_texture_usage_to_mtl_eq]
    exact foldl_lor_append mtl_usage_bits A B
  · simp only [to_wgpu_usage_eq]
    exact foldl_lor_append wgpu_usage_bits A B

/-- C7 witness: instantiated at the CopySrc singleton and the disjoint sets
containing CopySrc and CopyDst. -/
theorem c7_usage_bit_coverage_witness :
    ((map_texture_usage_to_vk [TextureUsage.CopySrc]).1 ≠ 0 ∧
      map_texture_usage_to_mtl [TextureUsage.CopySrc] ≠ 0 ∧
      to_wgpu_usage [TextureUsage.CopySrc] ≠ 0) ∧
    ((map_texture_usage_to_vk ([TextureUsage.CopySrc] ++ [TextureUsage.CopyDst])).1
        = (map_texture_usage_to_vk [TextureUsage.CopySrc]).1
          ||| (map_texture_usage_to_vk [TextureUsage.CopyDst]).1 ∧
      map_texture_usage_to_mtl ([TextureUsage.CopySrc] ++ [TextureUsage.CopyDst])
        = map_texture_usage_to_mtl [TextureUsage.CopySrc]
          ||| map_texture_usage_to_mtl [TextureUsage.CopyDst] ∧
      to_wgpu_usage ([TextureUsage.CopySrc] ++ [TextureUsage.CopyDst])
        = to_wgpu_usage [TextureUsage.CopySrc]
          ||| to_wgpu_usage [TextureUsage.CopyDst]) :=
  c7_usage_bit_coverage .CopySrc [.CopySrc] [.CopyDst] (by decide)

/-- A Vulkan texture with an owned allocation, as create produces it. -/
def exportable_vk_texture : VulkanSharedTexture :=
  { image := 0, allocation := some 1, image_view := none,
    descriptor := sample_descriptor, exported_handle := none }

/-- C8: whenever export_texture succeeds and some memory-type bit below the
device's memory-type count is set in the image's requirement mask, the
returned handle's memory_type_index is the lowest set bit: it lies below
the count, its bit is set, and every lower bit is clear. -/
theorem c8_memory_type_index_first_bit (o : VkOracle) (s s2 : VkState)
    (t : VulkanSharedTexture) (h : VulkanTextureShareHandle)
    (hexp : vulkan_export_texture o s t = (s2, .ok (.Vulkan h)))
    (i : Nat) (hi : i < o.memory_type_count)
    (hb : o.mem_req_bits.testBit i = true) :
    h.memory_type_index < o.memory_type_count ∧
    o.mem_req_bits.testBit h.memory_type_index = true ∧
    ∀ j, j < h.memory_type_index → o.mem_req_bits.testBit j = false := by
  have hmti : h.memory_type_index
      = find_memory_type_index o.memory_type_count o.mem_req_bits := by
    unfold vulkan_export_texture at hexp
    split at hexp
    · simp at hexp
    · split at hexp
      · simp at hexp
      · simp only [Prod.mk.injEq, Except.ok.injEq,
          ApiTextureHandle.Vulkan.injEq] at hexp
        rw [← hexp.2]
  rw [hmti]
  exact ⟨(find_memory_type_index_spec o.memory_type_count o.mem_req_bits i hi hb).1,
    (find_memory_type_index_spec o.memory_type_count o.mem_req_bits i hi hb).2.1,
    (find_memory_type_index_spec o.memory_type_count o.mem_req_bits i hi hb).2.2⟩

/-- C8 witness: with requirement mask 0b1100 and 8 memory types, a
successful export resolves memory_type_index to 2, the lowest set bit. -/
theorem c8_memory_type_index_first_bit_witness :
    ({ raw_handle := 9, memory_type_index := 2, size := 1024,
       handle_type := VK_OPAQUE_FD,
       dedicated_allocation := true } : VulkanTextureShareHandle).memory_type_index
      < vk_oracle_ok.memory_type_count ∧
    vk_oracle_ok.mem_req_bits.testBit
      ({ raw_handle := 9, memory_type_index := 2, size := 1024,
         handle_type := VK_OPAQUE_FD,
         dedicated_allocation := true } : VulkanTextureShareHandle).memory_type_index
      = true :=
  ⟨(c8_memory_type_index_first_bit vk_oracle_ok vk_state0
      { vk_state0 with exported_resources := [(9, 1)] } exportable_vk_texture
      { raw_handle := 9, memory_type_index := 2, size := 1024,
        handle_type := VK_OPAQUE_FD, dedicated_allocation := true }
      rfl 2 (by decide) (by decide)).1,
   (c8_memory_type_index_first_bit vk_oracle_ok vk_state0
      { vk_state0 with exported_resources := [(9, 1)] } exportable_vk_texture
      { raw_handle := 9, memory_type_index := 2, size := 1024,
        handle_type := VK_OPAQUE_FD, dedicated_allocation := true }
      rfl 2 (by decide) (by decide)).2.1⟩

/-- C9: create_shareable_texture leaves the manager's registry unchanged on
every execution path, success or failure, on both backends; a created
texture is untracked until exported. -/
theorem c9_create_preserves_registry (o : VkOracle) (s : VkState)
    (d : TextureDescriptor) (mo : MetalOracle) (ms : MetalState)
    (d2 : TextureDescriptor) :
    (vulkan_create_shareable_texture o s d).1.exported_resources
      = s.exported_resources ∧
    (metal_create_shareable_texture mo ms d2).1.exported_surfaces
      = ms.exported_surfaces := by
  constructor
  · unfold vulkan_create_shareable_texture
    cases map_texture_format_to_vk d.format with
    | error e => rfl
    | ok vf =>
      by_cases h1 : o.create_image_ok = false
      · rw [if_pos h1]
      · rw [if_neg h1]
        by_cases h2 : o.allocate_ok = false
        · rw [if_pos h2]
        · rw [if_neg h2]
          by_cases h3 : o.bind_ok = false
          · rw [if_pos h3]
          · rw [if_neg h3]
  · unfold metal_create_shareable_texture
    cases map_texture_format_to_mtl d2.format with
    | error e => rfl
    | ok mf =>
      by_cases h1 : mo.new_surface_ok = false
      · rw [if_pos h1]
      · rw [if_neg h1]
        by_cases h2 : mo.new_texture_ok = false
        · rw [if_pos h2]
        · rw [if_neg h2]

/-- C10: releasing a handle whose backend variant does not match the
manager returns InvalidTextureHandle with the manager state unchanged and
nothing freed, on both backends. -/
theorem c10_cross_backend_release_rejected (s : VkState)
    (mh : MetalTextureShareHandle) (ms : MetalState)
    (vh : VulkanTextureShareHandle) :
    vulkan_release_texture_handle s (.Metal mh)
      = (s, .error .InvalidTextureHandle, []) ∧
    metal_release_texture_handle ms (.Vulkan vh)
      = (ms, .error .InvalidTextureHandle, []) :=
  ⟨rfl, rfl⟩

/-- A Metal texture as import_texture produces it for the sample handle. -/
def imported_metal_texture : MetalSharedTexture :=
  { texture := 0, io_surface := some 5, descriptor := sample_descriptor,
    exported_handle := some sample_metal_handle }

/-- C1 counterexample: on the Metal backend, importing the handle naming
IOSurface id 5 and then exporting the imported texture succeeds (returning
the same surface id) instead of failing with an ownership-related error:
the same backing memory is silently re-exported. -/
theorem c1_counterexample :
    ((metal_import_texture metal_oracle_ok metal_state0
        (.Metal sample_metal_handle) sample_descriptor).2.map
      (fun t => (metal_export_texture
        (metal_import_texture metal_oracle_ok metal_state0
          (.Metal sample_metal_handle) sample_descriptor).1 t).2))
    = .ok (.ok (.Metal sample_metal_handle)) := rfl

/-- C1 amended: on the Vulkan backend, exporting a texture obtained via
the import operation fails with the ownership-related Other error (such
textures carry no owned allocation); on the Metal backend, exporting an
already-imported texture instead succeeds and returns the same IOSurface
id it was originally imported under. -/
theorem c1_export_ownership_amended (o o2 : VkOracle) (s s2 : VkState)
    (vh : VulkanTextureShareHandle) (d : TextureDescriptor)
    (t : VulkanSharedTexture)
    (himp : (vulkan_import_texture o s (.Vulkan vh) d).2 = .ok t)
    (mo : MetalOracle) (ms ms2 : MetalState) (mh : MetalTextureShareHandle)
    (d2 : TextureDescriptor) (mt : MetalSharedTexture)
    (hmimp : (metal_import_texture mo ms (.Metal mh) d2).2 = .ok mt) :
    vulkan_export_texture o2 s2 t
      = (s2, .error (.Other "Texture has no allocation to export")) ∧
    (metal_export_texture ms2 mt).2 = .ok (.Metal mh) := by
  constructor
  · have halloc : t.allocation = none := by
      obtain ⟨vf, hvf⟩ := map_texture_format_to_vk_total d.format
      simp only [vulkan_import_texture, hvf] at himp
      cases hc : o.create_image_ok with
      | false => simp [hc] at himp
      | true =>
        cases hm : o.allocate_memory_ok with
        | false => simp [hc, hm] at himp
        | true =>
          cases hb : o.bind_ok with
          | false => simp [hc, hm, hb] at himp
          | true =>
            simp only [hc, hm, hb, Bool.true_eq_false, if_false,
              Except.ok.injEq] at himp
            rw [← himp]
    rw [vulkan_export_texture, halloc]
  · have hsurf : mt.io_surface = some mh.io_surface_id := by
      obtain ⟨mf, hmf⟩ := map_texture_format_to_mtl_total d2.format
      simp only [metal_import_texture, hmf] at hmimp
      cases hl : mo.lookup_ok with
      | false => simp [hl] at hmimp
      | true =>
        cases ht : mo.new_texture_ok with
        | false => simp [hl, ht] at hmimp
        | true =>
          simp only [hl, ht, Bool.true_eq_false, if_false,
            Except.ok.injEq] at hmimp
          rw [← hmimp]
    rw [metal_export_texture, hsurf]

/-- C1 amended witness: instantiated with all-succeeding oracles on fresh
managers and the sample handles. -/
theorem c1_export_ownership_amended_witness :
    vulkan_export_texture vk_oracle_ok vk_state0 imported_vk_texture
      = (vk_state0, .error (.Other "Texture has no allocation to export")) ∧
    (metal_export_texture metal_state0 imported_metal_texture).2
      = .ok (.Metal sample_metal_handle) :=
  c1_export_ownership_amended vk_oracle_ok vk_oracle_ok vk_state0 vk_state0
    sample_vk_handle sample_descriptor imported_vk_texture rfl
    metal_oracle_ok metal_state0 metal_state0 sample_metal_handle
    sample_descriptor imported_metal_texture rfl

/-- C2: the code contradicts the claim: when the Vulkan image has been
created and the following memory allocation fails, both
create_shareable_texture and import_texture return the allocation error
with the created image still live (image id 0 remains in live_images and is
never destroyed), so the partially created native image leaks instead of
being destroyed before the error returns. -/
theorem c2_partial_failure_leaks_image :
    vulkan_create_shareable_texture vk_oracle_alloc_fail vk_state0
        sample_descriptor
      = ({ vk_state0 with next_id := 1, live_images := [0] },
         .error (.VulkanApiError "Failed to allocate image memory")) ∧
    (vulkan_create_shareable_texture vk_oracle_alloc_fail vk_state0
        sample_descriptor).1.live_images = [0] ∧
    vulkan_import_texture vk_oracle_alloc_fail vk_state0
        (.Vulkan sample_vk_handle) sample_descriptor
      = ({ vk_state0 with next_id := 1, live_images := [0] },
         .error (.VulkanApiError "Failed to import FD memory")) :=
  ⟨rfl, rfl, rfl⟩

/-- C3 counterexample: a successful Metal import of surface id 5 leaves the
registry without any entry for that id (refuting that the registry contains
exactly one entry keyed by the handle's identifying value), and on the
Vulkan backend re-importing raw handle 7 allocates a second backing memory
(memory ids 1 and 3 are both live after the second import) while the
registry entry is overwritten to the newer memory. -/
theorem c3_counterexample :
    ((metal_import_texture metal_oracle_ok metal_state0
        (.Metal sample_metal_handle) sample_descriptor).2.toOption.isSome
      = true) ∧
    ((metal_import_texture metal_oracle_ok metal_state0
        (.Metal sample_metal_handle) sample_descriptor).1.exported_surfaces
      = []) ∧
    ((vulkan_import_texture vk_oracle_ok vk_state0
        (.Vulkan sample_vk_handle) sample_descriptor).2.toOption.isSome
      = true) ∧
    ((vulkan_import_texture vk_oracle_ok
        (vulkan_import_texture vk_oracle_ok vk_state0
          (.Vulkan sample_vk_handle) sample_descriptor).1
        (.Vulkan sample_vk_handle) sample_descriptor).2.toOption.isSome
      = true) ∧
    ((vulkan_import_texture vk_oracle_ok vk_state0
        (.Vulkan sample_vk_handle) sample_descriptor).1.live_memories = [1]) ∧
    ((vulkan_import_texture vk_oracle_ok
        (vulkan_import_texture vk_oracle_ok vk_state0
          (.Vulkan sample_vk_handle) sample_descriptor).1
        (.Vulkan sample_vk_handle) sample_descriptor).1.live_memories
      = [3, 1]) ∧
    ((vulkan_import_texture vk_oracle_ok
        (vulkan_import_texture vk_oracle_ok vk_state0
          (.Vulkan sample_vk_handle) sample_descriptor).1
        (.Vulkan sample_vk_handle) sample_descriptor).1.exported_resources
      = [(7, 3)]) :=
  ⟨rfl, rfl, rfl, rfl, rfl, rfl, rfl⟩

/-- C3 amended: on the Vulkan backend a successful import registers exactly
one entry keyed by the handle's raw value, mapping to the memory imported
by that very call (each import allocates afresh, so re-import allocates a
second backing memory and overwrites the entry); on the Metal backend
importing leaves the registry untouched (entries are inserted only by
export there); release removes exactly the entry for the released key. -/
theorem c3_registry_amended (o : VkOracle) (s : VkState)
    (vh : VulkanTextureShareHandle) (d : TextureDescriptor)
    (h1 : o.create_image_ok = true) (h2 : o.allocate_memory_ok = true)
    (h3 : o.bind_ok = true)
    (mo : MetalOracle) (ms : MetalState) (mh : ApiTextureHandle)
    (d2 : TextureDescriptor) :
    ((vulkan_import_texture o s (.Vulkan vh) d).1.exported_resources
        = registry_insert s.exported_resources vh.raw_handle (s.next_id + 1) ∧
      registry_lookup
          (vulkan_import_texture o s (.Vulkan vh) d).1.exported_resources
          vh.raw_handle
        = some (s.next_id + 1) ∧
      ((vulkan_import_texture o s (.Vulkan vh) d).1.exported_resources.filter
          (fun p => p.1 == vh.raw_handle))
        = [(vh.raw_handle, s.next_id + 1)]) ∧
    ((metal_import_texture mo ms mh d2).1 = ms) ∧
    ((vulkan_release_texture_handle s (.Vulkan vh)).1.exported_resources
        = registry_remove s.exported_resources vh.raw_handle) := by
  have himp : (vulkan_import_texture o s (.Vulkan vh) d).1.exported_resources
      = registry_insert s.exported_resources vh.raw_handle (s.next_id + 1) := by
    obtain ⟨vf, hvf⟩ := map_texture_format_to_vk_total d.format
    simp [vulkan_import_texture, hvf, h1, h2, h3]
  refine ⟨⟨himp, ?_, ?_⟩, ?_, ?_⟩
  · rw [himp]
    exact registry_lookup_insert_self s.exported_resources vh.raw_handle
      (s.next_id + 1)
  · rw [himp]
    exact registry_insert_entries_self s.exported_resources vh.raw_handle
      (s.next_id + 1)
  · cases mh with
    | Vulkan h => rfl
    | Metal h =>
      cases hl : mo.lookup_ok <;> cases ht : mo.new_texture_ok <;>
        cases hmf : map_texture_format_to_mtl d2.format <;>
        simp [metal_import_texture, hl, ht, hmf]
  · cases hl : registry_lookup s.exported_resources vh.raw_handle with
    | some mem => simp [vulkan_release_texture_handle, hl]
    | none =>
      simp only [vulkan_release_texture_handle, hl]
      exact (registry_remove_of_lookup_none _ _ hl).symm

/-- C3 amended witness: instantiated with the all-succeeding oracles on
fresh managers and the sample handles. -/
theorem c3_registry_amended_witness :
    registry_lookup
        (vulkan_import_texture vk_oracle_ok vk_state0
          (.Vulkan sample_vk_handle) sample_descriptor).1.exported_resources
        sample_vk_handle.raw_handle
      = some (vk_state0.next_id + 1) ∧
    (metal_import_texture metal_oracle_ok metal_state0
        (.Metal sample_metal_handle) sample_descriptor).1 = metal_state0 :=
  ⟨(c3_registry_amended vk_oracle_ok vk_state0 sample_vk_handle
      sample_descriptor rfl rfl rfl metal_oracle_ok metal_state0
      (.Metal sample_metal_handle) sample_descriptor).1.2.1,
   (c3_registry_amended vk_oracle_ok vk_state0 sample_vk_handle
      sample_descriptor rfl rfl rfl metal_oracle_ok metal_state0
      (.Metal sample_metal_handle) sample_descriptor).2.1⟩

end Geyser
